import Mathlib

/-!
Verification development for a content-managed landing page.

The repository renders a page document as a sequence of typed blocks
(hero, content, newsletter-form), dispatched by `renderBlock` in
`src/app/(frontend)/page.tsx`, and implements a newsletter signup form
with a client-side submission flow in `NewsletterBlock`
(`handleSubmit` plus the JSX render).  This file embeds those pieces as
executable Lean definitions and proves the specified properties about
them.
-/

set_option autoImplicit false

namespace LandingPage

/-- Rich text payload: an opaque structured document handed to the external
rich-text renderer.  Modelled as a wrapper around its serialized content. -/
structure RichText where
  content : String
deriving DecidableEq, Repr

/-- One form field from the CMS `Form.fields` array.  In the source the field
union covers text / email / textarea / number / checkbox / select / country /
state variants; all carry a `blockType` tag, and input fields carry `name`,
optional `label` and optional `required`.  A field may lack a `name`
(the render guard checks `'name' in field`), hence `name : Option String`. -/
structure FormField where
  blockType : String
  name : Option String
  label : Option String
  required : Option Bool
deriving DecidableEq, Repr

/-- The CMS `Form` document referenced by a newsletter block: id, title
(compared against the sentinel `"newsletter-form-1"`), optional field list,
optional submit button label and optional confirmation rich text. -/
structure Form where
  id : Nat
  title : String
  fields : Option (List FormField)
  submitButtonLabel : Option String
  confirmationMessage : Option RichText
deriving DecidableEq, Repr

/-- The value of `block.form` in a newsletter block: in TypeScript it is
`string | Form | null | undefined` — either absent, an unresolved string
reference (the form id), or the resolved `Form` object. -/
inductive FormRef where
  | null
  | refId (id : String)
  | obj (f : Form)
deriving DecidableEq, Repr

/-- JavaScript `typeof x === 'object'` on a form reference.  Note that
`typeof null === 'object'` in JavaScript, so the `null` case is `true`. -/
def FormRef.isObjectTypeof : FormRef → Bool
  | FormRef.null => true
  | FormRef.refId _ => false
  | FormRef.obj _ => true

/-- Optional-chained `block.form?.title`: `some` only on a resolved object. -/
def FormRef.titleOf : FormRef → Option String
  | FormRef.obj f => some f.title
  | _ => none

/-- The guard of `handleSubmit`: `if (!block.form || typeof block.form !==
'object') return`.  The handler proceeds exactly when the reference is truthy
and of object type, i.e. exactly on a resolved `Form` object (`null` is falsy,
a string reference is not of object type). -/
def FormRef.isResolvedObject : FormRef → Bool
  | FormRef.obj _ => true
  | _ => false

/-- The component-local submission state (`useState<FormState>`). -/
structure FormState where
  loading : Bool
  error : Option String
  success : Bool
deriving DecidableEq, Repr

/-- Initial state of the `useState` hook: `{loading: false, error: null,
success: false}` — the Idle mode. -/
def initialFormState : FormState :=
  { loading := false, error := none, success := false }

/-- The state set synchronously at the start of `handleSubmit`:
`{loading: true, error: null, success: false}`. -/
def loadingFormState : FormState :=
  { loading := true, error := none, success := false }

/-- The state set when the fetch resolves with `response.ok`:
`{loading: false, error: null, success: true}`. -/
def successFormState : FormState :=
  { loading := false, error := none, success := true }

/-- The state set in the `catch` block:
`{loading: false, error: 'Failed to submit form', success: false}`. -/
def errorFormState : FormState :=
  { loading := false, error := some "Failed to submit form", success := false }

/-! ### Form-data collection

`handleSubmit` builds `new FormData(form)` and then
`Object.fromEntries(formData.entries())`.  A native form's entries are an
ordered list of (name, value) pairs; `Object.fromEntries` assigns them into a
plain object in order, so per name the last value wins, while the key keeps
the position of its first occurrence.  `Object.entries` then reads the keys
back in that insertion order. -/

/-- One step of `Object.fromEntries`: assign key `k` to value `v` in an
object represented as an ordered association list.  An existing key keeps its
position and gets the new value; a new key is appended at the end. -/
def insertEntry : List (String × String) → String → String → List (String × String)
  | [], k, v => [(k, v)]
  | p :: rest, k, v => if p.1 = k then (k, v) :: rest else p :: insertEntry rest k v

/-- `Object.fromEntries` over the ordered native form-data entries: assign
each pair in order, so the last value wins per name. -/
def fromEntries (ps : List (String × String)) : List (String × String) :=
  ps.foldl (fun acc p => insertEntry acc p.1 p.2) []

/-- Property lookup on the resulting object (first — and only — occurrence
of the key in the association list). -/
def lookupEntry (k : String) : List (String × String) → Option String
  | [] => none
  | p :: rest => if p.1 = k then some p.2 else lookupEntry k rest

/-- The value the spec ascribes to a name: the LAST value submitted under
that name in the raw entry list ("last value wins per name — native
form-data semantics").  Written from the spec's words, to be compared with
`fromEntries` built from the code. -/
def lastValue (k : String) : List (String × String) → Option String
  | [] => none
  | p :: rest =>
    match lastValue k rest with
    | some v => some v
    | none => if p.1 = k then some p.2 else none

/-! ### The submission request and the effects of `handleSubmit` -/

/-- One `{field, value}` entry of the `submissionData` array. -/
structure SubmissionEntry where
  field : String
  value : String
deriving DecidableEq, Repr

/-- The JSON body posted by `handleSubmit`:
`{ form: block.form.id, submissionData: [{field, value}, ...] }`. -/
structure SubmissionBody where
  form : Nat
  submissionData : List SubmissionEntry
deriving DecidableEq, Repr

/-- An HTTP request issued through `fetch`. -/
structure Request where
  urlPath : String
  method : String
  contentType : String
  body : SubmissionBody
deriving DecidableEq, Repr

/-- Possible outcomes of the awaited `fetch` call: it resolves with
`response.ok` true, resolves with `response.ok` false, or throws. -/
inductive FetchOutcome where
  | ok
  | notOk
  | throws
deriving DecidableEq, Repr

/-- The observable effects of one invocation of `handleSubmit`:
the fetch calls issued, the sequence of `setFormState` updates (in call
order, the deferred timer update excluded), the `console.log(data)` payload,
whether `console.error` ran, whether the native form was reset, and the
scheduled deferred reset (delay in milliseconds paired with the state the
timer sets when it fires). -/
structure SubmitResult where
  requests : List Request
  stateUpdates : List FormState
  loggedData : Option (List (String × String))
  loggedError : Bool
  formReset : Bool
  timer : Option (Nat × FormState)
deriving DecidableEq, Repr

/-- The single POST built in the `try` block of `handleSubmit`:
`fetch('/api/form-submissions', { method: 'POST', body: JSON.stringify({
form: block.form.id, submissionData: Object.entries(data).map(([field,
value]) => ({field, value})) }), headers: {'Content-Type':
'application/json'} })`. -/
def submissionRequest (f : Form) (inputs : List (String × String)) : Request :=
  { urlPath := "/api/form-submissions"
    method := "POST"
    contentType := "application/json"
    body :=
      { form := f.id
        submissionData :=
          (fromEntries inputs).map (fun kv => { field := kv.1, value := kv.2 }) } }

/-- `handleSubmit` from `NewsletterBlock`, as a function of the block's form
reference, the native form's ordered (name, value) entries, and the fetch
outcome.  It guards on an unresolved reference, sets the loading state,
collects and logs the form data, issues the POST, and then either sets the
success state, resets the native form and schedules the 5000 ms reset to
the initial state, or (`response.ok` false — which throws — or a thrown
fetch error) logs the error and sets the generic error state. -/
def handleSubmit (formRef : FormRef) (inputs : List (String × String))
    (outcome : FetchOutcome) : SubmitResult :=
  match formRef with
  | FormRef.obj f =>
    let data := fromEntries inputs
    let req := submissionRequest f inputs
    match outcome with
    | FetchOutcome.ok =>
      { requests := [req]
        stateUpdates := [loadingFormState, successFormState]
        loggedData := some data
        loggedError := false
        formReset := true
        timer := some (5000, initialFormState) }
    | FetchOutcome.notOk =>
      { requests := [req]
        stateUpdates := [loadingFormState, errorFormState]
        loggedData := some data
        loggedError := true
        formReset := false
        timer := none }
    | FetchOutcome.throws =>
      { requests := [req]
        stateUpdates := [loadingFormState, errorFormState]
        loggedData := some data
        loggedError := true
        formReset := false
        timer := none }
  | _ =>
    { requests := []
      stateUpdates := []
      loggedData := none
      loggedError := false
      formReset := false
      timer := none }

/-! ### The render of `NewsletterBlock` -/

/-- JavaScript `x || dflt` on an optional string: falsy values (absent or
the empty string) fall through to the default.  Used for
`submitButtonLabel || 'Submit'` and `label || ''`. -/
def jsOrString (s : Option String) (dflt : String) : String :=
  match s with
  | some v => if v = "" then dflt else v
  | none => dflt

/-- One rendered `<input>` with its `<label>`: the attributes the JSX sets
for a named field. -/
structure RenderedInput where
  inputType : String
  name : String
  labelText : Option String
  required : Bool
  placeholder : String
deriving DecidableEq, Repr

/-- The render of one entry of `block.form.fields`: a field without a
`name` renders `null`; a named field renders an input of type `email` when
its `blockType` is `'email'` and `text` otherwise, with `required ||
false` and `label || ''` as placeholder. -/
def renderField (fld : FormField) : Option RenderedInput :=
  match fld.name with
  | none => none
  | some n =>
    some
      { inputType := if fld.blockType = "email" then "email" else "text"
        name := n
        labelText := fld.label
        required := fld.required.getD false
        placeholder := jsOrString fld.label "" }

/-- The visible inputs of the form: the per-field render with the `null`
entries dropped (React renders nothing for a `null` child). -/
def renderedInputs (fs : List FormField) : List RenderedInput :=
  (fs.map renderField).reduceOption

/-- The bottom area of the form markup: on success the confirmation rich
text (the value of `block.form.confirmationMessage!`, passed to the
rich-text renderer without a guard, hence possibly absent), otherwise the
submit button. -/
inductive SubmitArea where
  | confirmation (message : Option RichText)
  | button (labelText : String)
deriving DecidableEq, Repr

/-- The visible form markup: heading, inputs, the error paragraph shown
when `formState.error` is set, and the submit area. -/
structure FormUI where
  heading : String
  inputs : List RenderedInput
  errorMessage : Option String
  submitArea : SubmitArea
deriving DecidableEq, Repr

/-- What a newsletter block renders: nothing, or the form UI. -/
inductive NewsletterView where
  | empty
  | formUI (ui : FormUI)
deriving DecidableEq, Repr

/-- The data of one newsletter block: its heading and form reference. -/
structure NewsletterBlockData where
  heading : String
  form : FormRef
deriving DecidableEq, Repr

/-- The display gate of the JSX: `typeof block?.form === 'object' &&
block?.form?.title === 'newsletter-form-1'`.  When `block.form` is `null`
the first conjunct holds (`typeof null === 'object'`) but the optional
chain yields no title, so the net gate is: resolved object with the
sentinel title. -/
def newsletterGate (r : FormRef) : Bool :=
  r.isObjectTypeof && (r.titleOf == some "newsletter-form-1")

/-- The render of `NewsletterBlock` for a given submission state: if the
gate passes, the heading, the per-field inputs, the error paragraph when
`formState.error` is set, and either the confirmation rich text (when
`formState.success`) or the submit button labelled
`submitButtonLabel || 'Submit'`; otherwise nothing. -/
def renderNewsletter (block : NewsletterBlockData) (st : FormState) : NewsletterView :=
  match block.form with
  | FormRef.obj f =>
    if f.title = "newsletter-form-1" then
      NewsletterView.formUI
        { heading := block.heading
          inputs := renderedInputs (f.fields.getD [])
          errorMessage := st.error
          submitArea :=
            if st.success then SubmitArea.confirmation f.confirmationMessage
            else SubmitArea.button (jsOrString f.submitButtonLabel "Submit") }
    else NewsletterView.empty
  | _ => NewsletterView.empty

/-! ### The block dispatcher of the home page -/

/-- One entry of `page.layout`: a tagged variant over hero, content and
newsletter-form blocks, plus unrecognized block types (carrying their
`blockType` tag).  Each variant carries the fields its renderer uses and
the optional React key `id`. -/
inductive Block where
  | hero (id : Option String) (heading : String)
  | content (id : Option String) (heading : String) (body : RichText)
  | newsletterForm (id : Option String) (heading : String) (form : FormRef)
  | other (blockType : String) (id : Option String)
deriving DecidableEq, Repr

/-- The rendered output of one block: the component invoked with its
block data. -/
inductive Rendered where
  | heroBlock (id : Option String) (heading : String)
  | contentBlock (id : Option String) (heading : String) (body : RichText)
  | newsletterBlock (id : Option String) (heading : String) (form : FormRef)
deriving DecidableEq, Repr

/-- `renderBlock` from `page.tsx`: the `switch (block.blockType)` mapping
hero, content and newsletter-form to their components and everything else
to `null`. -/
def renderBlock : Block → Option Rendered
  | Block.hero i h => some (Rendered.heroBlock i h)
  | Block.content i h c => some (Rendered.contentBlock i h c)
  | Block.newsletterForm i h f => some (Rendered.newsletterBlock i h f)
  | Block.other _ _ => none

/-- The home page body: `page.layout?.map((block) => renderBlock(block))` —
an absent layout renders nothing. -/
def renderLayout (layout : Option (List Block)) : List (Option Rendered) :=
  match layout with
  | none => []
  | some blocks => blocks.map renderBlock

/-! ### Composition from rendered inputs to submission payload -/

/-- The native form-data entries produced by the rendered inputs under a
valuation assigning each input name the value the user entered. -/
def nativeEntries (inputs : List RenderedInput) (vals : String → String) :
    List (String × String) :=
  inputs.map (fun i => (i.name, vals i.name))

/-- The serialized `submissionData` a submit produces for a field list,
through rendering, native form-data collection and the
`Object.entries(...).map(([field, value]) => ({field, value}))` step. -/
def submissionDataFor (fs : List FormField) (vals : String → String) :
    List SubmissionEntry :=
  (fromEntries (nativeEntries (renderedInputs fs) vals)).map
    (fun kv => { field := kv.1, value := kv.2 })

/-! ### Concrete sample data used by witness theorems -/

/-- A required email field with a label and a name. -/
def emailField : FormField :=
  { blockType := "email", name := some "email", label := some "Email",
    required := some true }

/-- A field entry lacking a name attribute. -/
def namelessField : FormField :=
  { blockType := "message", name := none, label := none, required := none }

/-- A resolved gated form with one required email field (the concrete
scenario of the spec). -/
def sampleForm : Form :=
  { id := 42
    title := "newsletter-form-1"
    fields := some [emailField]
    submitButtonLabel := some "Join"
    confirmationMessage := some { content := "Thanks for subscribing" } }

/-- Native form-data entries for the sample submission. -/
def sampleInputs : List (String × String) := [("email", "a@b.com")]

/-- A gated form whose `confirmationMessage` is absent. -/
def unguardedForm : Form :=
  { id := 7
    title := "newsletter-form-1"
    fields := some [emailField]
    submitButtonLabel := some "Join"
    confirmationMessage := none }

/-! ## Lemmas about form-data collection -/

theorem lookupEntry_insertEntry (acc : List (String × String)) (k k0 v : String) :
    lookupEntry k (insertEntry acc k0 v) =
      if k0 = k then some v else lookupEntry k acc := by
  induction acc with
  | nil =>
    by_cases hk : k0 = k <;> simp [insertEntry, lookupEntry, hk]
  | cons p rest ih =>
    by_cases hp : p.1 = k0
    · subst hp
      by_cases hk : p.1 = k <;> simp [insertEntry, lookupEntry, hk]
    · by_cases hk : k0 = k
      · subst hk
        simp [insertEntry, lookupEntry, hp, ih]
      · simp [insertEntry, lookupEntry, hp, hk, ih]

theorem lookupEntry_foldl (ps : List (String × String)) (k : String) :
    ∀ acc, lookupEntry k (ps.foldl (fun acc p => insertEntry acc p.1 p.2) acc) =
      match lastValue k ps with
      | some v => some v
      | none => lookupEntry k acc := by
  induction ps with
  | nil => intro acc; simp [lastValue]
  | cons p rest ih =>
    intro acc
    rw [List.foldl_cons, ih]
    cases hrest : lastValue k rest with
    | some v => simp [lastValue, hrest]
    | none =>
      by_cases hk : p.1 = k <;>
        simp [lastValue, hrest, lookupEntry_insertEntry, hk]

/-- The collected flat mapping realizes last-value-wins per name. -/
theorem lookupEntry_fromEntries (inputs : List (String × String)) (k : String) :
    lookupEntry k (fromEntries inputs) = lastValue k inputs := by
  have h := lookupEntry_foldl inputs k []
  rw [fromEntries, h]
  cases lastValue k inputs <;> simp [lookupEntry]

/-! ## Claim theorems -/

/-- C1: on every submit with a resolved form reference, the named input
values are collected into a flat mapping where the last value wins per
name, that mapping is turned into an ordered list of {field, value} pairs,
and exactly one HTTP POST to `/api/form-submissions` is issued whose JSON
body is `{ form: <form id>, submissionData: [...] }` with a
`Content-Type: application/json` header. -/
theorem submit_posts_single_request (f : Form) (inputs : List (String × String))
    (outcome : FetchOutcome) :
    (handleSubmit (FormRef.obj f) inputs outcome).requests = [submissionRequest f inputs] ∧
    (submissionRequest f inputs).urlPath = "/api/form-submissions" ∧
    (submissionRequest f inputs).method = "POST" ∧
    (submissionRequest f inputs).contentType = "application/json" ∧
    (submissionRequest f inputs).body.form = f.id ∧
    (submissionRequest f inputs).body.submissionData =
      (fromEntries inputs).map (fun kv => { field := kv.1, value := kv.2 }) ∧
    ∀ k, lookupEntry k (fromEntries inputs) = lastValue k inputs := by
  refine ⟨?_, rfl, rfl, rfl, rfl, rfl, fun k => lookupEntry_fromEntries inputs k⟩
  cases outcome <;> rfl

/-- C2: a submit whose fetch resolves ok drives the state Idle → Loading →
Success (loading false, error none, success true), resets the native form,
and the success-state render of a gated block hides the submit button and
shows the confirmation rich text. -/
theorem submit_ok_reaches_success (f : Form) (inputs : List (String × String))
    (heading : String) (h : f.title = "newsletter-form-1") :
    initialFormState :: (handleSubmit (FormRef.obj f) inputs FetchOutcome.ok).stateUpdates =
      [initialFormState, loadingFormState, successFormState] ∧
    successFormState = { loading := false, error := none, success := true } ∧
    (handleSubmit (FormRef.obj f) inputs FetchOutcome.ok).formReset = true ∧
    renderNewsletter { heading := heading, form := FormRef.obj f } successFormState =
      NewsletterView.formUI
        { heading := heading
          inputs := renderedInputs (f.fields.getD [])
          errorMessage := none
          submitArea := SubmitArea.confirmation f.confirmationMessage } := by
  refine ⟨rfl, rfl, rfl, ?_⟩
  simp [renderNewsletter, h, successFormState]

/-- C2 witness: the success path at the concrete sample form and inputs. -/
theorem submit_ok_reaches_success_witness :
    initialFormState :: (handleSubmit (FormRef.obj sampleForm) sampleInputs FetchOutcome.ok).stateUpdates =
      [initialFormState, loadingFormState, successFormState] ∧
    successFormState = { loading := false, error := none, success := true } ∧
    (handleSubmit (FormRef.obj sampleForm) sampleInputs FetchOutcome.ok).formReset = true ∧
    renderNewsletter { heading := "Subscribe", form := FormRef.obj sampleForm } successFormState =
      NewsletterView.formUI
        { heading := "Subscribe"
          inputs := renderedInputs (sampleForm.fields.getD [])
          errorMessage := none
          submitArea := SubmitArea.confirmation sampleForm.confirmationMessage } :=
  submit_ok_reaches_success sampleForm sampleInputs "Subscribe" rfl

/-- C3: a fetch that resolves non-ok and a fetch that throws produce the
very same result — the state updates end in loading false, success false
and the generic error message "Failed to submit form" — and the failure is
logged to diagnostics. -/
theorem failure_uniform_error (f : Form) (inputs : List (String × String)) :
    handleSubmit (FormRef.obj f) inputs FetchOutcome.notOk =
      handleSubmit (FormRef.obj f) inputs FetchOutcome.throws ∧
    (handleSubmit (FormRef.obj f) inputs FetchOutcome.throws).stateUpdates =
      [loadingFormState, errorFormState] ∧
    errorFormState =
      { loading := false, error := some "Failed to submit form", success := false } ∧
    (handleSubmit (FormRef.obj f) inputs FetchOutcome.throws).loggedError = true :=
  ⟨rfl, rfl, rfl, rfl⟩

/-- C4: the newsletter block renders its form UI if and only if the form
reference is a resolved object whose title equals the sentinel
"newsletter-form-1"; in every other case it renders nothing. -/
theorem newsletter_render_gate (heading : String) (r : FormRef) (st : FormState) :
    (newsletterGate r = true ↔ ∃ f, r = FormRef.obj f ∧ f.title = "newsletter-form-1") ∧
    (renderNewsletter { heading := heading, form := r } st ≠ NewsletterView.empty ↔
      newsletterGate r = true) := by
  constructor
  · cases r with
    | null => simp [newsletterGate, FormRef.isObjectTypeof, FormRef.titleOf]
    | refId s => simp [newsletterGate, FormRef.isObjectTypeof, FormRef.titleOf]
    | obj f => simp [newsletterGate, FormRef.isObjectTypeof, FormRef.titleOf]
  · cases r with
    | null => simp [renderNewsletter, newsletterGate, FormRef.isObjectTypeof, FormRef.titleOf]
    | refId s => simp [renderNewsletter, newsletterGate, FormRef.isObjectTypeof, FormRef.titleOf]
    | obj f =>
      by_cases ht : f.title = "newsletter-form-1" <;>
        simp [renderNewsletter, newsletterGate, FormRef.isObjectTypeof, FormRef.titleOf, ht]

/-- C5: the reset scheduled on the success path fires after 5000 ms and
sets the state back to the initial Idle values (loading false, error none,
success false). -/
theorem success_schedules_idle_reset (f : Form) (inputs : List (String × String)) :
    (handleSubmit (FormRef.obj f) inputs FetchOutcome.ok).timer =
      some (5000, initialFormState) ∧
    initialFormState = { loading := false, error := none, success := false } :=
  ⟨rfl, rfl⟩

/-- C6: a submit on a block whose form reference is not a resolved object
performs no network call, no state update, no log, no form reset and no
timer — a silent no-op. -/
theorem unresolved_form_noop (r : FormRef) (inputs : List (String × String))
    (outcome : FetchOutcome) (h : r.isResolvedObject = false) :
    handleSubmit r inputs outcome =
      { requests := [], stateUpdates := [], loggedData := none,
        loggedError := false, formReset := false, timer := none } := by
  cases r with
  | null => rfl
  | refId s => rfl
  | obj f => simp [FormRef.isResolvedObject] at h

/-- C6 witness: the no-op at a concrete unresolved string reference. -/
theorem unresolved_form_noop_witness :
    handleSubmit (FormRef.refId "form-7") [("email", "a@b.com")] FetchOutcome.ok =
      { requests := [], stateUpdates := [], loggedData := none,
        loggedError := false, formReset := false, timer := none } :=
  unresolved_form_noop (FormRef.refId "form-7") [("email", "a@b.com")] FetchOutcome.ok rfl

/-- C7: the dispatcher yields at most one output per block in input order:
mapping over the layout preserves length and order, each recognized variant
maps to its renderer, and every unrecognized blockType yields none without
raising an error. -/
theorem dispatcher_one_output_per_block (blocks : List Block) :
    (blocks.map renderBlock).length = blocks.length ∧
    renderLayout (some blocks) = blocks.map renderBlock ∧
    (∀ i h, renderBlock (Block.hero i h) = some (Rendered.heroBlock i h)) ∧
    (∀ i h c, renderBlock (Block.content i h c) = some (Rendered.contentBlock i h c)) ∧
    (∀ i h fr, renderBlock (Block.newsletterForm i h fr) =
      some (Rendered.newsletterBlock i h fr)) ∧
    (∀ bt i, renderBlock (Block.other bt i) = none) :=
  ⟨by simp, rfl, fun _ _ => rfl, fun _ _ _ => rfl, fun _ _ _ => rfl, fun _ _ => rfl⟩

/-- C8: a field entry lacking a name is excluded from the rendered inputs
and consequently contributes no entry to the serialized submission
payload. -/
theorem nameless_field_excluded (fs1 fs2 : List FormField) (fld : FormField)
    (vals : String → String) (h : fld.name = none) :
    renderedInputs (fs1 ++ fld :: fs2) = renderedInputs (fs1 ++ fs2) ∧
    submissionDataFor (fs1 ++ fld :: fs2) vals = submissionDataFor (fs1 ++ fs2) vals := by
  have hf : renderField fld = none := by simp [renderField, h]
  have hr : renderedInputs (fs1 ++ fld :: fs2) = renderedInputs (fs1 ++ fs2) := by
    simp [renderedInputs, hf, List.reduceOption_append, List.reduceOption_cons_of_none]
  exact ⟨hr, by simp only [submissionDataFor, hr]⟩

/-- C8 witness: a nameless message field next to a named email field. -/
theorem nameless_field_excluded_witness :
    renderedInputs ([] ++ namelessField :: [emailField]) =
      renderedInputs ([] ++ [emailField]) ∧
    submissionDataFor ([] ++ namelessField :: [emailField]) (fun _ => "a@b.com") =
      submissionDataFor ([] ++ [emailField]) (fun _ => "a@b.com") :=
  nameless_field_excluded [] [emailField] namelessField (fun _ => "a@b.com") rfl

/-- C9: a submit that ends in the Error state leaves the native form's
input values unchanged (no reset — the reset happens only on the success
path), and the error-state render of a gated block keeps the inputs and
the submit button, so resubmission remains possible. -/
theorem error_preserves_inputs (f : Form) (inputs : List (String × String))
    (heading : String) (outcome : FetchOutcome) (h : outcome ≠ FetchOutcome.ok) :
    (handleSubmit (FormRef.obj f) inputs outcome).formReset = false ∧
    (handleSubmit (FormRef.obj f) inputs outcome).stateUpdates =
      [loadingFormState, errorFormState] ∧
    (f.title = "newsletter-form-1" →
      renderNewsletter { heading := heading, form := FormRef.obj f } errorFormState =
        NewsletterView.formUI
          { heading := heading
            inputs := renderedInputs (f.fields.getD [])
            errorMessage := some "Failed to submit form"
            submitArea := SubmitArea.button (jsOrString f.submitButtonLabel "Submit") }) := by
  cases outcome with
  | ok => exact absurd rfl h
  | notOk =>
    exact ⟨rfl, rfl, fun ht => by simp [renderNewsletter, ht, errorFormState]⟩
  | throws =>
    exact ⟨rfl, rfl, fun ht => by simp [renderNewsletter, ht, errorFormState]⟩

/-- C9 witness: the error path at the concrete sample form and inputs. -/
theorem error_preserves_inputs_witness :
    (handleSubmit (FormRef.obj sampleForm) sampleInputs FetchOutcome.notOk).formReset = false ∧
    (handleSubmit (FormRef.obj sampleForm) sampleInputs FetchOutcome.notOk).stateUpdates =
      [loadingFormState, errorFormState] ∧
    (sampleForm.title = "newsletter-form-1" →
      renderNewsletter { heading := "Subscribe", form := FormRef.obj sampleForm } errorFormState =
        NewsletterView.formUI
          { heading := "Subscribe"
            inputs := renderedInputs (sampleForm.fields.getD [])
            errorMessage := some "Failed to submit form"
            submitArea := SubmitArea.button (jsOrString sampleForm.submitButtonLabel "Submit") }) :=
  error_preserves_inputs sampleForm sampleInputs "Subscribe" FetchOutcome.notOk
    (by decide)

/-- C10: for a gated form whose confirmationMessage is absent, the
success-state render passes the missing value straight to the rich-text
renderer (the non-null assertion has no guard and no fallback). -/
theorem success_confirmation_unguarded :
    newsletterGate (FormRef.obj unguardedForm) = true ∧
    unguardedForm.confirmationMessage = none ∧
    renderNewsletter { heading := "Subscribe", form := FormRef.obj unguardedForm }
        successFormState =
      NewsletterView.formUI
        { heading := "Subscribe"
          inputs := renderedInputs (unguardedForm.fields.getD [])
          errorMessage := none
          submitArea := SubmitArea.confirmation none } := by
  refine ⟨by rfl, rfl, ?_⟩
  simp [renderNewsletter, unguardedForm, successFormState]

end LandingPage
